import Mathlib

/-!
Shallow embedding of the blok FUSE passthrough filesystem driver
(src/src/blokfs.c).  Paths are modelled as lists of characters, the
thread-local error value and raw syscall results as integers, and the
underlying filesystem syscalls as oracle inputs (either explicit raw
results or functions packaged in an environment record).  Each handler
below mirrors the control flow of the corresponding C function.
-/

namespace Blok

/-- The platform path-length limit (limits.h PATH_MAX on Linux). -/
def PATH_MAX : Nat := 4096

/-- ENOMEM error code, as used by the readdir handler. -/
def ENOMEM : Int := 12

/-- Embedding of blok_fullpath (blokfs.c lines 43-47):
strcpy of the root directory followed by strncat of the virtual path
bounded by PATH_MAX characters.  The value is the character sequence the
buffer holds afterwards. -/
def blok_fullpath (rootdir path : List Char) : List Char :=
  rootdir ++ path.take PATH_MAX

/-- Embedding of wrap_return_code (blokfs.c lines 49-54): a negative raw
result is replaced by the negation of the current errno value; a
non-negative result passes through. -/
def wrap_return_code (real_code errno : Int) : Int :=
  if real_code < 0 then -errno else real_code

/-- Oracle for the underlying filesystem calls the modelled handlers
perform.  lstat and fstat yield a raw result paired with the metadata
the stat buffer would hold; close and closedir yield a raw result;
errno is the thread-local error value observed right after a call. -/
structure FsEnv where
  lstat : List Char → Int × Nat
  fstat : Int → Int × Nat
  close : Int → Int
  closedir : Int → Int
  errno : Int

/-- Embedding of blok_getattr (blokfs.c lines 56-61): resolve the path,
lstat it, normalize the raw result. -/
def blok_getattr (env : FsEnv) (rootdir path : List Char) : Int × Nat :=
  let fpath := blok_fullpath rootdir path
  let r := env.lstat fpath
  (wrap_return_code r.1 env.errno, r.2)

/-- Success-mode model of the readlink syscall: given the link target
and a buffer size, it writes min(target length, buffer size) bytes with
no terminator and returns that count. -/
def sys_readlink (target : List Char) (bufsize : Nat) : Int × List Char :=
  (Int.ofNat (min target.length bufsize), target.take bufsize)

/-- Embedding of blok_readlink (blokfs.c lines 65-76): call the readlink
primitive with size - 1, normalize, and on a non-negative result place a
terminator right after the bytes written and return 0.  The primitive is
passed in so both its success and failure behaviours are covered. -/
def blok_readlink (sysRL : Nat → Int × List Char) (size : Nat) (errno : Int) :
    Int × List Char :=
  let r := sysRL (size - 1)
  let retstat := wrap_return_code r.1 errno
  if 0 ≤ retstat then (0, r.2 ++ [Char.ofNat 0])
  else (retstat, r.2)

/-- stat.h file-type mask. -/
def S_IFMT : Nat := 0o170000

/-- stat.h regular-file type bits. -/
def S_IFREG : Nat := 0o100000

/-- stat.h FIFO type bits. -/
def S_IFIFO : Nat := 0o010000

/-- S_ISREG macro: the mode's type bits equal the regular-file bits. -/
def S_ISREG (m : Nat) : Bool := m &&& S_IFMT == S_IFREG

/-- S_ISFIFO macro: the mode's type bits equal the FIFO bits. -/
def S_ISFIFO (m : Nat) : Bool := m &&& S_IFMT == S_IFIFO

/-- fcntl.h O_WRONLY flag. -/
def O_WRONLY : Nat := 0o1

/-- fcntl.h O_CREAT flag. -/
def O_CREAT : Nat := 0o100

/-- fcntl.h O_EXCL flag. -/
def O_EXCL : Nat := 0o200

/-- The underlying primitive blok_mknod selects for the requested node
type: open-with-flags-then-close, mkfifo, or the generic mknod. -/
inductive MknodAction where
  | openClose (flags : Nat) (mode : Nat)
  | mkfifo (mode : Nat)
  | mknodSys (mode : Nat) (dev : Nat)
deriving DecidableEq

/-- Embedding of the dispatch of blok_mknod (blokfs.c lines 78-100):
regular-file modes go to open(O_CREAT|O_EXCL|O_WRONLY, mode) followed by
close, FIFO modes to mkfifo, anything else to the generic mknod. -/
def blok_mknod (mode dev : Nat) : MknodAction :=
  if S_ISREG mode then MknodAction.openClose (O_CREAT ||| O_EXCL ||| O_WRONLY) mode
  else if S_ISFIFO mode then MknodAction.mkfifo mode
  else MknodAction.mknodSys mode dev

/-- Embedding of blok_open (blokfs.c lines 180-193): the raw open result
is normalized into fd, fd is stored into the handle slot, and only then
is it interpreted.  The value is (return code, handle slot). -/
def blok_open (openRet errno : Int) : Int × Int :=
  let fd := wrap_return_code openRet errno
  if fd < 0 then (-errno, fd) else (0, fd)

/-- Embedding of blok_flush (blokfs.c lines 213-216): unconditionally
returns 0, consulting nothing. -/
def blok_flush (env : FsEnv) (path : List Char) (fh : Int) : Int := 0

/-- Embedding of blok_release (blokfs.c lines 218-221): close the stored
descriptor and normalize the raw result. -/
def blok_release (env : FsEnv) (fh : Int) : Int :=
  wrap_return_code (env.close fh) env.errno

/-- Embedding of blok_releasedir (blokfs.c lines 304-308): closedir is
called, its result discarded, and 0 returned. -/
def blok_releasedir (env : FsEnv) (fh : Int) : Int :=
  let _ := env.closedir fh
  0

/-- The filler-loop of blok_readdir (blokfs.c lines 296-300) over the
remaining entries of the directory stream: each entry is handed to the
filler; a filler failure aborts the call with -ENOMEM.  The value is
(return code, entries successfully placed in the buffer, entries not yet
read from the stream). -/
def readdir_fill_loop (fillOk : String → Bool) :
    List String → Int × List String × List String
  | [] => (0, [], [])
  | d :: ds =>
    if fillOk d then
      let p := readdir_fill_loop fillOk ds
      (p.1, d :: p.2.1, p.2.2)
    else (-ENOMEM, [], ds)

/-- Embedding of blok_readdir (blokfs.c lines 283-302): the stream is
its list of not-yet-read entries.  A first readdir returning NULL (empty
stream) yields -errno; otherwise the filler loop runs over the whole
stream. -/
def blok_readdir (fillOk : String → Bool) (stream : List String) (errno : Int) :
    Int × List String × List String :=
  match stream with
  | [] => (-errno, [], [])
  | _ :: _ => readdir_fill_loop fillOk stream

/-- Embedding of blok_fgetattr (blokfs.c lines 350-366): the root path
falls back to the path-based blok_getattr; any other path fstats the
stored handle and normalizes the raw result. -/
def blok_fgetattr (env : FsEnv) (rootdir path : List Char) (fh : Int) :
    Int × Nat :=
  if path = ['/'] then
    blok_getattr env rootdir path
  else
    let r := env.fstat fh
    if r.1 < 0 then (-env.errno, r.2) else (r.1, r.2)

/-- C1: under the stated preconditions (absolute root with no trailing
slash, slash-rooted virtual path, combined length within PATH_MAX),
blok_fullpath is the literal concatenation of root and virtual path,
with no normalization. -/
theorem blok_fullpath_literal_concat (rootdir path : List Char)
    (hroot : rootdir ≠ [] ∧ rootdir.head? = some '/' ∧ rootdir.getLast? ≠ some '/')
    (hpath : path.head? = some '/')
    (hlen : rootdir.length + path.length < PATH_MAX) :
    blok_fullpath rootdir path = rootdir ++ path := by
  unfold blok_fullpath
  have hp : path.length ≤ PATH_MAX := by omega
  rw [List.take_of_length_le hp]

/-- Witness for C1 at root "/r", path "/a". -/
theorem blok_fullpath_literal_concat_witness :
    blok_fullpath ['/', 'r'] ['/', 'a'] = ['/', 'r', '/', 'a'] :=
  blok_fullpath_literal_concat ['/', 'r'] ['/', 'a']
    ⟨by decide, by decide, by decide⟩ (by decide) (by decide)

/-- C3: wrap_return_code returns the negated current errno on a negative
raw result and passes a non-negative raw result through unchanged. -/
theorem wrap_return_code_spec (real_code errno : Int) :
    (real_code < 0 → wrap_return_code real_code errno = -errno) ∧
    (0 ≤ real_code → wrap_return_code real_code errno = real_code) := by
  constructor
  · intro h
    simp [wrap_return_code, h]
  · intro h
    simp [wrap_return_code, not_lt.mpr h]

/-- Witness for C3 at raw results -1 and 5 with errno 13. -/
theorem wrap_return_code_spec_witness :
    wrap_return_code (-1) 13 = -13 ∧ wrap_return_code 5 13 = 5 :=
  ⟨(wrap_return_code_spec (-1) 13).1 (by decide),
   (wrap_return_code_spec 5 13).2 (by decide)⟩

/-- A concrete environment in which both close and closedir fail with
raw result -1 and errno 9 (EBADF). -/
def env_badclose : FsEnv :=
  { lstat := fun _ => (0, 0), fstat := fun _ => (0, 0),
    close := fun _ => -1, closedir := fun _ => -1, errno := 9 }

/-- C2 counterexample: closedir fails (raw result -1, errno 9), yet
blok_releasedir returns 0 rather than the negated errno -9, so the close
failure of a directory stream is not surfaced to the caller. -/
theorem blok_releasedir_swallows_failure :
    env_badclose.closedir 5 = -1 ∧ blok_releasedir env_badclose 5 = 0 ∧
      blok_releasedir env_badclose 5 ≠ -9 := by decide

/-- C2 amended: blok_release surfaces an underlying close failure as the
negated errno (and passes a non-negative close result through), but
blok_releasedir discards the closedir result and returns 0
unconditionally, swallowing any close failure of the directory
stream. -/
theorem blok_release_error_surfacing (env : FsEnv) (fh fhd : Int) :
    (env.close fh < 0 → blok_release env fh = -env.errno) ∧
    (0 ≤ env.close fh → blok_release env fh = env.close fh) ∧
    blok_releasedir env fhd = 0 := by
  refine ⟨fun h => ?_, fun h => ?_, rfl⟩
  · simp [blok_release, wrap_return_code, h]
  · simp [blok_release, wrap_return_code, not_lt.mpr h]

/-- Witness for C2 amended in env_badclose: release surfaces -9 while
releasedir returns 0. -/
theorem blok_release_error_surfacing_witness :
    blok_release env_badclose 3 = -9 ∧ blok_releasedir env_badclose 4 = 0 :=
  ⟨(blok_release_error_surfacing env_badclose 3 4).1 (by decide),
   (blok_release_error_surfacing env_badclose 3 4).2.2⟩

/-- If every remaining entry passes the filler, the loop reports the
whole remaining stream in order, consumes it, and returns 0. -/
theorem readdir_fill_loop_all_ok (fillOk : String → Bool) (l : List String)
    (h : ∀ d ∈ l, fillOk d = true) :
    readdir_fill_loop fillOk l = (0, l, []) := by
  induction l with
  | nil => rfl
  | cons d ds ih =>
    have hd : fillOk d = true := h d (List.mem_cons_self d ds)
    have hds : ∀ x ∈ ds, fillOk x = true := fun x hx => h x (List.mem_cons_of_mem d hx)
    simp [readdir_fill_loop, hd, ih hds]

/-- If some remaining entry fails the filler, the loop returns
-ENOMEM. -/
theorem readdir_fill_loop_fail (fillOk : String → Bool) (l : List String)
    (h : ∃ d ∈ l, fillOk d = false) :
    (readdir_fill_loop fillOk l).1 = -ENOMEM := by
  induction l with
  | nil => simp at h
  | cons d ds ih =>
    by_cases hd : fillOk d = true
    · have hds : ∃ x ∈ ds, fillOk x = false := by
        rcases h with ⟨x, hx, hxf⟩
        rcases List.mem_cons.mp hx with rfl | hx2
        · exact absurd hd (by simp [hxf])
        · exact ⟨x, hx2, hxf⟩
      simp [readdir_fill_loop, hd, ih hds]
    · simp [readdir_fill_loop, hd]

/-- C4: on a non-empty directory stream, one blok_readdir call reports
every entry exactly once in stream order and exhausts the stream when
every filler call succeeds, and returns -ENOMEM as soon as any single
filler call fails. -/
theorem blok_readdir_complete (fillOk : String → Bool) (stream : List String)
    (errno : Int) (hne : stream ≠ []) :
    ((∀ d ∈ stream, fillOk d = true) →
       blok_readdir fillOk stream errno = (0, stream, [])) ∧
    ((∃ d ∈ stream, fillOk d = false) →
       (blok_readdir fillOk stream errno).1 = -ENOMEM) := by
  match stream with
  | [] => exact absurd rfl hne
  | d :: ds =>
    constructor
    · intro h
      show readdir_fill_loop fillOk (d :: ds) = (0, d :: ds, [])
      exact readdir_fill_loop_all_ok fillOk (d :: ds) h
    · intro h
      show (readdir_fill_loop fillOk (d :: ds)).1 = -ENOMEM
      exact readdir_fill_loop_fail fillOk (d :: ds) h

/-- Witness for C4 on the two-entry stream [a, b] with an
always-succeeding filler and errno 7. -/
theorem blok_readdir_complete_witness :
    blok_readdir (fun _ => true) ["a", "b"] 7 = (0, ["a", "b"], []) :=
  (blok_readdir_complete (fun _ => true) ["a", "b"] 7 (by decide)).1
    (fun d _ => rfl)

/-- C5: blok_readlink hands size - 1 to the readlink primitive, so at
most size - 1 target bytes are read; the buffer ends up holding the
bytes written followed by a terminator placed at exactly the count the
primitive returned; the call returns 0 on success, and when the target
does not fit it holds exactly size - 1 content bytes. -/
theorem blok_readlink_truncation (target : List Char) (size : Nat)
    (errno : Int) (h : 1 ≤ size) :
    (sys_readlink target (size - 1)).1 ≤ Int.ofNat (size - 1) ∧
    blok_readlink (sys_readlink target) size errno =
      (0, target.take (size - 1) ++ [Char.ofNat 0]) ∧
    Int.ofNat (target.take (size - 1)).length = (sys_readlink target (size - 1)).1 ∧
    (size ≤ target.length → (target.take (size - 1)).length = size - 1) := by
  refine ⟨?_, ?_, ?_, ?_⟩
  · simp [sys_readlink]
  · have h0 : (0 : Int) ≤ Int.ofNat (min target.length (size - 1)) :=
      Int.ofNat_nonneg _
    simp only [blok_readlink, sys_readlink, wrap_return_code,
      if_neg (not_lt.mpr h0), if_pos h0]
  · simp [sys_readlink, List.length_take, Nat.min_comm]
  · intro hst
    have : size - 1 ≤ target.length := by omega
    simp [List.length_take, Nat.min_eq_left this]

/-- Witness for C5 on target "abc" with buffer size 3 and errno 5: two
content bytes plus terminator, return 0. -/
theorem blok_readlink_truncation_witness :
    blok_readlink (sys_readlink ['a', 'b', 'c']) 3 5 =
      (0, ['a', 'b'] ++ [Char.ofNat 0]) :=
  (blok_readlink_truncation ['a', 'b', 'c'] 3 5 (by decide)).2.1

/-- C6: blok_open stores the normalized descriptor in the handle slot
before interpreting it: a successful descriptor, 0 included, yields
return 0 with the slot holding that descriptor, while a failed open
leaves the negated errno (a negative sentinel) in the slot and returns a
negative error code. -/
theorem blok_open_slot_discipline (openRet errno : Int)
    (hpos : openRet < 0 → 0 < errno) :
    (0 ≤ openRet → blok_open openRet errno = (0, openRet)) ∧
    (openRet = 0 → blok_open openRet errno = (0, 0)) ∧
    (openRet < 0 →
      (blok_open openRet errno).2 = -errno ∧ (blok_open openRet errno).2 < 0 ∧
        (blok_open openRet errno).1 = -errno ∧ (blok_open openRet errno).1 < 0) := by
  refine ⟨fun h => ?_, fun h => ?_, fun h => ?_⟩
  · simp [blok_open, wrap_return_code, not_lt.mpr h]
  · subst h
    simp [blok_open, wrap_return_code]
  · have he : 0 < errno := hpos h
    have hneg : -errno < 0 := by omega
    simp [blok_open, wrap_return_code, h, hneg]

/-- Witness for C6 at a successful descriptor 0 and at a failed open
with errno 2. -/
theorem blok_open_slot_discipline_witness :
    blok_open 0 2 = (0, 0) ∧
      (blok_open (-1) 2).2 = -2 ∧ (blok_open (-1) 2).1 = -2 :=
  ⟨(blok_open_slot_discipline 0 2 (by decide)).1 (by decide),
   ((blok_open_slot_discipline (-1) 2 (fun _ => by decide)).2.2 (by decide)).1,
   ((blok_open_slot_discipline (-1) 2 (fun _ => by decide)).2.2 (by decide)).2.2.1⟩

/-- A FIFO mode is never a regular-file mode: the masked type bits
cannot equal both S_IFIFO and S_IFREG. -/
theorem S_ISFIFO_not_reg (m : Nat) (h : S_ISFIFO m = true) :
    S_ISREG m = false := by
  have h2 : m &&& S_IFMT = S_IFIFO := by
    have := of_decide_eq_true (by simpa [S_ISFIFO] using h)
    exact this
  simp [S_ISREG, h2, S_IFIFO, S_IFREG]

/-- C7: blok_mknod dispatches on the requested node type: regular file
to create-and-close with the given mode, FIFO to mkfifo, everything
else to the generic mknod primitive, which is never selected for a FIFO
mode. -/
theorem blok_mknod_dispatch (mode dev : Nat) :
    (S_ISREG mode = true →
      blok_mknod mode dev =
        MknodAction.openClose (O_CREAT ||| O_EXCL ||| O_WRONLY) mode) ∧
    (S_ISFIFO mode = true → blok_mknod mode dev = MknodAction.mkfifo mode) ∧
    (S_ISREG mode = false → S_ISFIFO mode = false →
      blok_mknod mode dev = MknodAction.mknodSys mode dev) ∧
    (S_ISFIFO mode = true →
      ∀ m d, blok_mknod mode dev ≠ MknodAction.mknodSys m d) := by
  refine ⟨fun h => ?_, fun h => ?_, fun h1 h2 => ?_, fun h => ?_⟩
  · simp [blok_mknod, h]
  · simp [blok_mknod, S_ISFIFO_not_reg mode h, h]
  · simp [blok_mknod, h1, h2]
  · intro m d
    simp [blok_mknod, S_ISFIFO_not_reg mode h, h]

/-- Witness for C7 at a FIFO mode (0o010644), a regular-file mode
(0o100644) and a character-device mode (0o020644). -/
theorem blok_mknod_dispatch_witness :
    blok_mknod 0o010644 0 = MknodAction.mkfifo 0o010644 ∧
    blok_mknod 0o100644 0 =
      MknodAction.openClose (O_CREAT ||| O_EXCL ||| O_WRONLY) 0o100644 ∧
    blok_mknod 0o020644 7 = MknodAction.mknodSys 0o020644 7 :=
  ⟨(blok_mknod_dispatch 0o010644 0).2.1 (by decide),
   (blok_mknod_dispatch 0o100644 0).1 (by decide),
   (blok_mknod_dispatch 0o020644 7).2.2.1 (by decide) (by decide)⟩

/-- C8: blok_fgetattr on the root path "/" coincides with the
path-based blok_getattr and ignores the file handle; on any other path
the result comes from fstat on the handle, normalized. -/
theorem blok_fgetattr_root_fallback (env : FsEnv) (rootdir path : List Char)
    (fh fh' : Int) :
    (path = ['/'] →
      blok_fgetattr env rootdir path fh = blok_getattr env rootdir path ∧
      blok_fgetattr env rootdir path fh = blok_fgetattr env rootdir path fh') ∧
    (path ≠ ['/'] →
      (blok_fgetattr env rootdir path fh).2 = (env.fstat fh).2 ∧
      ((env.fstat fh).1 < 0 →
        (blok_fgetattr env rootdir path fh).1 = -env.errno) ∧
      (0 ≤ (env.fstat fh).1 →
        (blok_fgetattr env rootdir path fh).1 = (env.fstat fh).1)) := by
  constructor
  · intro h
    subst h
    exact ⟨rfl, rfl⟩
  · intro h
    refine ⟨?_, fun hneg => ?_, fun hpos => ?_⟩
    · by_cases hs : (env.fstat fh).1 < 0 <;> simp [blok_fgetattr, h, hs]
    · simp [blok_fgetattr, h, hneg]
    · simp [blok_fgetattr, h, not_lt.mpr hpos]

/-- A concrete environment for the C8 witness: lstat yields metadata 7,
fstat yields metadata 9, with errno 1. -/
def env_c8 : FsEnv :=
  { lstat := fun _ => (0, 7), fstat := fun _ => (0, 9),
    close := fun _ => 0, closedir := fun _ => 0, errno := 1 }

/-- Witness for C8: on path "/" the handle-based call equals the
path-based one for two different handles, and on path "/f" the metadata
comes from fstat. -/
theorem blok_fgetattr_root_fallback_witness :
    (blok_fgetattr env_c8 ['/', 'r'] ['/'] 3 = blok_getattr env_c8 ['/', 'r'] ['/'] ∧
     blok_fgetattr env_c8 ['/', 'r'] ['/'] 3 = blok_fgetattr env_c8 ['/', 'r'] ['/'] 4) ∧
    (blok_fgetattr env_c8 ['/', 'r'] ['/', 'f'] 3).2 = (env_c8.fstat 3).2 :=
  ⟨(blok_fgetattr_root_fallback env_c8 ['/', 'r'] ['/'] 3 4).1 rfl,
   ((blok_fgetattr_root_fallback env_c8 ['/', 'r'] ['/', 'f'] 3 4).2 (by decide)).1⟩

/-- C9: blok_flush returns 0 for every path and handle and consults no
part of the underlying filesystem: its result is the same in every
environment. -/
theorem blok_flush_noop (env : FsEnv) (path : List Char) (fh : Int) :
    blok_flush env path fh = 0 ∧
    ∀ (env2 : FsEnv) (path2 : List Char) (fh2 : Int),
      blok_flush env path fh = blok_flush env2 path2 fh2 :=
  ⟨rfl, fun _ _ _ => rfl⟩

/-- C10: when the very first readdir on the stream returns NULL (the
stream is already exhausted), blok_readdir returns the negation of the
current errno value whether or not an error occurred, so a stale errno
makes an exhausted stream look like a read failure. -/
theorem blok_readdir_empty_returns_neg_errno (fillOk : String → Bool)
    (errno : Int) :
    blok_readdir fillOk [] errno = (-errno, [], []) := rfl

end Blok
